import Mathlib

/-
  Verification of the W3pets marketplace backend's authentication and
  seller-onboarding core against its natural-language specification.

  The JavaScript source is shallowly embedded: each Express handler becomes a
  pure Lean function from the request data and an explicit database state to an
  HTTP response and a successor state.  External collaborators (bcrypt, jwt,
  the email sender) are passed in as function parameters; timestamps are
  natural numbers of milliseconds since the epoch, matching Date.now().
-/

namespace W3pets

/-- An HTTP response as produced by res.status(s).json or res.status(s).send:
    a status code and the message text of the JSON body. -/
structure HttpResponse where
  status : Nat
  message : String
  deriving DecidableEq, Repr

/-- JavaScript truthiness of an optional string value: `undefined`/`null` and
    the empty string are falsy.  Used for the `!x` checks in the source. -/
def falsyOpt : Option String → Bool
  | none => true
  | some s => s = ""

/-! ## Token Service (src/helpers/utils.js, generateToken)  -/

/-- The signing-secret environment variables named in src/helpers/utils.js. -/
inductive SigningSecret
  | jwtAccessSecret
  | jwtRefreshSecret
  | jwtResetSecret
  deriving DecidableEq, Repr

/-- Secret selection of generateToken (src/helpers/utils.js lines 13-17):
    "access" uses JWT_ACCESS_SECRET, "refresh" uses JWT_REFRESH_SECRET, and
    every other type string falls through to JWT_RESET_SECRET. -/
def generateTokenSecret (type : String) : SigningSecret :=
  if type = "access" then .jwtAccessSecret
  else if type = "refresh" then .jwtRefreshSecret
  else .jwtResetSecret

/-- Expiry selection of generateToken (src/helpers/utils.js lines 19-23):
    "access" is signed with expiresIn "15m", "refresh" with "7d", and every
    other type string with "1h". -/
def generateTokenExpiresIn (type : String) : String :=
  if type = "access" then "15m"
  else if type = "refresh" then "7d"
  else "1h"

/-! ## Session middleware (src/helpers/auth.js) -/

/-- Outcome of an Express middleware that may attach verified claims:
    either a response is sent, or next() is called after the verified
    payload has been stored on req.user. -/
inductive MwOutcome (C : Type)
  | respond (status : Nat) (body : String)
  | next (verified : C)
  deriving DecidableEq, Repr

/-- Token extraction of loginRequired (src/helpers/auth.js line 12), which is
    authHeader.startsWith("Bearer ") followed by authHeader.split(" ")[1] on
    success and the raw header value otherwise.  The string operations are
    modelled over the character list of the header so that they compute. -/
def extractBearer (h : String) : String :=
  if "Bearer ".data.isPrefixOf h.data then
    String.mk ((h.data.splitOn ' ').getD 1 [])
  else h

/-- The loginRequired middleware (src/helpers/auth.js lines 8-22).  `verify`
    stands for jwt.verify with JWT_ACCESS_SECRET, returning the decoded
    claims on success.  An absent or empty authorization header is rejected
    with 401, an empty extracted token with 401, a token failing verification
    with 400 "Invalid token"; on success the claims are attached and next()
    is called. -/
def loginRequired {C : Type} (verify : String → Option C)
    (authHeader : Option String) : MwOutcome C :=
  if falsyOpt authHeader then
    .respond 401 "Access denied. No token provided."
  else
    let token := extractBearer (authHeader.getD "")
    if token = "" then
      .respond 401 "Access denied. Token is missing or malformed."
    else
      match verify token with
      | some c => .next c
      | none => .respond 400 "Invalid token"

/-- Outcome of a gate middleware that attaches nothing on pass-through. -/
inductive GateOutcome
  | passThrough
  | respond (status : Nat) (body : String)
  deriving DecidableEq, Repr

/-- The preventLoggedUser middleware (src/helpers/auth.js lines 24-35): with
    no authorization header it calls next() immediately; a header holding a
    token that verifies is rejected with 401 "Access denied"; a token that
    fails verification is rejected with 400 "Invalid token".  The raw header
    is passed to jwt.verify without Bearer stripping, as in the source. -/
def preventLoggedUser {C : Type} (verify : String → Option C)
    (authHeader : Option String) : GateOutcome :=
  if falsyOpt authHeader then
    .passThrough
  else
    match verify (authHeader.getD "") with
    | some _ => .respond 401 "Access denied"
    | none => .respond 400 "Invalid token"

/-! ## Association-list maps

The process-wide Map objects (unverifiedUsers, passwordResetTokens) and the
token-keyed SQL lookups are modelled as association lists. -/

/-- Map.get: the value stored under a key. -/
def mapGet {V : Type} (k : String) (m : List (String × V)) : Option V :=
  (m.find? (fun e => e.1 == k)).map (fun e => e.2)

/-- Map.set: overwrite the entry for the key, or append a fresh one. -/
def mapSet {V : Type} (k : String) (v : V) (m : List (String × V)) :
    List (String × V) :=
  if m.any (fun e => e.1 == k) then
    m.map (fun e => if e.1 = k then (k, v) else e)
  else m ++ [(k, v)]

/-- Map.delete: remove every entry stored under the key. -/
def mapDelete {V : Type} (k : String) (m : List (String × V)) :
    List (String × V) :=
  m.filter (fun e => !(e.1 == k))

/-! ## Auth controller state (src/controllers/authController.js and the
     matching pg-promise variant in src/unnamed/part_003)

The relational tables are the users table and the refresh_tokens table
(user_id, token); the two process-wide maps hold pending signups and pending
password resets.  bcrypt and jwt are abstracted as function parameters. -/

/-- A row of the users table: id, username, email, password (the bcrypt
    hash) and role, as selected by the auth controller queries. -/
structure AuthUser where
  id : Nat
  username : String
  email : String
  password : String
  role : String
  deriving DecidableEq, Repr

/-- An entry of the unverifiedUsers map (src/controllers/authController.js
    lines 33-39): the signup data plus the creation timestamp. -/
structure PendingUser where
  username : String
  email : String
  password : String
  redirectUrl : Option String
  createdAt : Nat
  deriving DecidableEq, Repr

/-- An entry of the passwordResetTokens map (src/controllers/authController.js
    lines 172-175). -/
structure ResetEntry where
  userId : Nat
  createdAt : Nat
  deriving DecidableEq, Repr

/-- The database plus process-wide state seen by the auth controller. -/
structure AuthState where
  users : List AuthUser
  refreshTokens : List (Nat × String)
  unverifiedUsers : List (String × PendingUser)
  passwordResetTokens : List (String × ResetEntry)
  nextUserId : Nat
  deriving DecidableEq, Repr

/-- A response of the auth controller: status, message, and the access token
    of the JSON body and refresh-token cookie when they are issued. -/
structure AuthResponse where
  status : Nat
  message : String
  accessToken : Option String
  refreshCookie : Option String
  deriving DecidableEq, Repr

/-- verifyEmail (src/controllers/authController.js lines 77-151): look the
    token up in unverifiedUsers; 400 if absent; 400 and drop the entry if
    older than 24 hours; otherwise INSERT the user row with role "user",
    issue access and refresh tokens (genAccess, genRefresh stand for
    generateToken of kind "access" and "refresh"), INSERT the refresh-token
    row and delete the pending entry. -/
def verifyEmail (genAccess genRefresh : AuthUser → String)
    (token : String) (now : Nat) (st : AuthState) : AuthResponse × AuthState :=
  match mapGet token st.unverifiedUsers with
  | none => (⟨400, "Invalid or expired verification link", none, none⟩, st)
  | some d =>
    if now - d.createdAt > 24 * 60 * 60 * 1000 then
      (⟨400, "Verification link has expired", none, none⟩,
       { st with unverifiedUsers := mapDelete token st.unverifiedUsers })
    else
      let newUser : AuthUser := ⟨st.nextUserId, d.username, d.email, d.password, "user"⟩
      let accessToken := genAccess newUser
      let refreshToken := genRefresh newUser
      (⟨200, "Email verified successfully", some accessToken, some refreshToken⟩,
       { st with
           users := st.users ++ [newUser],
           refreshTokens := st.refreshTokens ++ [(newUser.id, refreshToken)],
           unverifiedUsers := mapDelete token st.unverifiedUsers,
           nextUserId := st.nextUserId + 1 })

/-- forgotPassword (src/controllers/authController.js lines 153-200): look
    the user up by email; whether or not a user exists, answer 200 with the
    same message; only in the registered case store a reset entry under a
    fresh reset token (genReset stands for generateToken of kind "reset")
    and send the reset email. -/
def forgotPassword (genReset : Nat → String)
    (email : String) (now : Nat) (st : AuthState) : AuthResponse × AuthState :=
  match st.users.find? (fun u => u.email == email) with
  | none =>
    (⟨200, "If your email is registered, you will receive a password reset link",
      none, none⟩, st)
  | some u =>
    let resetToken := genReset u.id
    (⟨200, "If your email is registered, you will receive a password reset link",
      none, none⟩,
     { st with passwordResetTokens := mapSet resetToken ⟨u.id, now⟩ st.passwordResetTokens })

/-- resetPassword (src/controllers/authController.js lines 202-276): look the
    token up in passwordResetTokens; 400 if absent; 400 and drop the entry if
    older than 1 hour; otherwise hash the new password, UPDATE the user row,
    re-select the user (db.one throws when the row is gone, surfacing as the
    500 catch branch), issue fresh tokens, UPDATE the refresh-token row for
    the account and delete the reset entry. -/
def resetPassword (hash : String → String) (genAccess genRefresh : AuthUser → String)
    (token newPassword : String) (now : Nat) (st : AuthState) :
    AuthResponse × AuthState :=
  match mapGet token st.passwordResetTokens with
  | none => (⟨400, "Invalid or expired reset link", none, none⟩, st)
  | some td =>
    if now - td.createdAt > 60 * 60 * 1000 then
      (⟨400, "Invalid or expired reset link", none, none⟩,
       { st with passwordResetTokens := mapDelete token st.passwordResetTokens })
    else
      let hashed := hash newPassword
      let usersUpdated := st.users.map
        (fun u => if u.id = td.userId then { u with password := hashed } else u)
      match usersUpdated.find? (fun u => u.id == td.userId) with
      | none => (⟨500, "Error resetting password", none, none⟩,
                 { st with users := usersUpdated })
      | some u =>
        let accessToken := genAccess u
        let refreshToken := genRefresh u
        (⟨200, "Password reset successful", some accessToken, some refreshToken⟩,
         { st with
             users := usersUpdated,
             refreshTokens := st.refreshTokens.map
               (fun r => if r.1 = u.id then (r.1, refreshToken) else r),
             passwordResetTokens := mapDelete token st.passwordResetTokens })

/-- The refresh-token store of the auth controller login (src/unnamed/part_003
    lines 307-313): INSERT INTO refresh_tokens (user_id, token) VALUES ...
    ON CONFLICT (user_id) DO UPDATE SET token, i.e. an upsert keyed by the
    account id. -/
def upsertRefreshToken (uid : Nat) (tok : String) (rows : List (Nat × String)) :
    List (Nat × String) :=
  if rows.any (fun r => r.1 == uid) then
    rows.map (fun r => if r.1 = uid then (uid, tok) else r)
  else rows ++ [(uid, tok)]

/-- login (src/unnamed/part_003 lines 278-332): reject missing fields with
    400, unknown email or failing bcrypt compare with 401; on success issue
    access and refresh tokens and store the refresh token with
    upsertRefreshToken. -/
def authLogin (compare : String → String → Bool)
    (genAccess genRefresh : AuthUser → String)
    (email password : String) (st : AuthState) : AuthResponse × AuthState :=
  if email = "" ∨ password = "" then
    (⟨400, "Email and password are required", none, none⟩, st)
  else
    match st.users.find? (fun u => u.email == email) with
    | none => (⟨401, "Invalid email or password", none, none⟩, st)
    | some u =>
      if compare password u.password then
        let accessToken := genAccess u
        let refreshToken := genRefresh u
        (⟨200, "Login successful", some accessToken, some refreshToken⟩,
         { st with refreshTokens := upsertRefreshToken u.id refreshToken st.refreshTokens })
      else (⟨401, "Invalid email or password", none, none⟩, st)

/-- refreshToken (src/unnamed/part_003 lines 334-393): read the cookie, 401 if
    absent; verify the JWT with the refresh secret (verifyRefresh yields the
    id claim of the payload), 401 on failure; SELECT the stored row for that
    user id and reject with 401 unless its token equals the presented one;
    then re-select the user, issue fresh tokens, and UPDATE the stored row. -/
def authRefresh (verifyRefresh : String → Option Nat)
    (genAccess genRefresh : AuthUser → String)
    (cookie : Option String) (st : AuthState) : AuthResponse × AuthState :=
  if falsyOpt cookie then
    (⟨401, "No refresh token provided", none, none⟩, st)
  else
    let token := cookie.getD ""
    match verifyRefresh token with
    | none => (⟨401, "Invalid or expired refresh token", none, none⟩, st)
    | some uid =>
      match st.refreshTokens.find? (fun r => r.1 == uid) with
      | none => (⟨401, "Refresh token not found or does not match", none, none⟩, st)
      | some dbTok =>
        if dbTok.2 = token then
          match st.users.find? (fun u => u.id == uid) with
          | none => (⟨401, "User not found", none, none⟩, st)
          | some u =>
            let newAccess := genAccess u
            let newRefresh := genRefresh u
            (⟨200, "", some newAccess, some newRefresh⟩,
             { st with refreshTokens :=
                 st.refreshTokens.map (fun r => if r.1 = u.id then (r.1, newRefresh) else r) })
        else (⟨401, "Refresh token not found or does not match", none, none⟩, st)

/-- At most one stored refresh-token row per account. -/
def atMostOnePerUser (rows : List (Nat × String)) : Prop :=
  ∀ uid : Nat, (rows.filter (fun r => r.1 == uid)).length ≤ 1

/-! ## The userController login path (src/controllers/userController.js with
     src/models/Token.js) over the Prisma RefreshToken table -/

namespace UserCtrl

/-- A row of the Prisma RefreshToken table (src/prisma/schema.prisma lines
    117-127): the token column is a required, non-nullable unique String
    with no default. -/
structure TokenRow where
  id : Nat
  token : String
  userId : Nat
  createdAt : Nat
  expiresAt : Nat
  deriving DecidableEq, Repr

/-- The user columns read by the userController login. -/
structure UcUser where
  id : Nat
  username : String
  email : String
  password : String
  isSeller : Bool
  deriving DecidableEq, Repr

/-- Database state of the userController flows. -/
structure UcState where
  users : List UcUser
  refreshTokens : List TokenRow
  deriving DecidableEq, Repr

/-- createRefreshToken (src/models/Token.js lines 60-74): the create data
    supplies userId, expiresAt seven days out and createdAt now, but no
    token value, while the RefreshToken.token column (schema.prisma) is
    required, non-nullable and has no default.  The Prisma call therefore
    throws a validation error, the catch branch returns null, and nothing
    is written: the function yields none and the state unchanged. -/
def createRefreshToken (_uid _now : Nat) (st : UcState) : Option TokenRow × UcState :=
  (none, st)

/-- getRefreshToken (src/models/Token.js lines 76-89): findFirst where the
    token column equals the presented token and expiresAt is in the future. -/
def getRefreshToken (token : String) (now : Nat) (st : UcState) : Option TokenRow :=
  st.refreshTokens.find? (fun r => r.token == token && decide (now < r.expiresAt))

/-- deleteRefreshToken (src/models/Token.js lines 91-99): delete the row
    carrying the token. -/
def deleteRefreshToken (token : String) (st : UcState) : UcState :=
  { st with refreshTokens := st.refreshTokens.filter (fun r => !(r.token == token)) }

/-- login (src/controllers/userController.js lines 10-39): find the user by
    email (404 if absent), bcrypt-compare the password (400 on mismatch),
    sign a 15-minute access token, call createRefreshToken and answer with
    refreshToken.token.  Because createRefreshToken returns null, reading
    .token throws a TypeError, and this login has no try/catch: the handler
    crashes with no response of its own (modelled as none) after writing
    nothing.  In no case is an existing refresh-token row deleted or
    overwritten. -/
def login (compare : String → String → Bool) (signAccess : Nat → String)
    (email password : String) (now : Nat) (st : UcState) :
    Option HttpResponse × UcState :=
  match st.users.find? (fun u => u.email == email) with
  | none => (some ⟨404, "User not found"⟩, st)
  | some u =>
    if compare password u.password then
      let accessToken := signAccess u.id
      match createRefreshToken u.id now st with
      | (none, st2) => (none, st2)
      | (some _, st2) => (some ⟨200, accessToken⟩, st2)
    else (some ⟨400, "Invalid password"⟩, st)

/-- refreshToken (src/controllers/userController.js lines 109-141): look the
    presented token up with getRefreshToken (401 when absent), find its user
    (404 when gone), sign a new access token, delete the presented row and
    call createRefreshToken; reading .token of its null result throws, and
    the try/catch of this handler answers 500 "Error refreshing token" —
    after the delete already ran. -/
def refreshTokenHandler (signAccess : Nat → String)
    (refreshToken : String) (now : Nat) (st : UcState) : HttpResponse × UcState :=
  match getRefreshToken refreshToken now st with
  | none => (⟨401, "Invalid refresh token"⟩, st)
  | some stored =>
    match st.users.find? (fun u => u.id == stored.userId) with
    | none => (⟨404, "User not found"⟩, st)
    | some u =>
      let accessToken := signAccess u.id
      let st2 := deleteRefreshToken refreshToken st
      match createRefreshToken u.id now st2 with
      | (none, st3) => (⟨500, "Error refreshing token"⟩, st3)
      | (some _, st3) => (⟨200, accessToken⟩, st3)

end UserCtrl

/-! ## Seller onboarding (src/unnamed/part_004, onboardSeller)

The multipart handler parses two JSON payloads out of the form fields,
validates required fields and uploaded files, and then runs a Prisma
interactive transaction that updates the user row to a seller and creates
the first product.  The transaction is modelled as a list of row writes
executed in order; a write that throws, or an injected failure before the
k-th write, aborts the whole transaction and the database keeps its prior
state, which is exactly the Prisma rollback semantics. -/

/-- The S3 environment of src/helpers/fileUpload.js. -/
structure S3Env where
  bucket : String
  region : String
  deriving DecidableEq, Repr

/-- getFileUrl (src/helpers/fileUpload.js lines 51-53). -/
def getFileUrl (env : S3Env) (key : String) : String :=
  "https://" ++ env.bucket ++ ".s3." ++ env.region ++ ".amazonaws.com/" ++ key

/-- The profile JSON payload of the onboarding request.  Values are optional
    strings; a missing key is none, and the JS falsy check also treats the
    empty string as missing. -/
structure OnboardProfile where
  business_name : Option String
  contact_phone : Option String
  business_address : Option String
  city : Option String
  state : Option String
  location_coords : Option String
  seller_uniqueness : Option String
  deriving DecidableEq, Repr

/-- The listing JSON payload of the onboarding request.  The numeric fields
    (age, quantity, weight, price) are kept as their raw JSON strings; the
    claims under proof only concern field presence and row creation, so the
    parseFloat and toString conversions of the source carry the same raw
    text through. -/
structure OnboardListing where
  product_title : Option String
  product_category : Option String
  product_brand : Option String
  age : Option String
  quantity : Option String
  weight : Option String
  price : Option String
  gender : Option String
  deriving DecidableEq, Repr

/-- The multipart onboarding request: jsonOk models whether JSON.parse of the
    listing and profile form fields succeeded, and the four file fields hold
    the S3 keys of the uploaded files (none when the field is absent). -/
structure OnboardRequest where
  jsonOk : Bool
  profile : OnboardProfile
  listing : OnboardListing
  brand_image : Option (List String)
  product_photos : Option (List String)
  product_video : Option (List String)
  verification_id : Option (List String)
  deriving DecidableEq, Repr

/-- The required profile fields, in source order (src/unnamed/part_004 lines
    185-191). -/
def requiredProfileFields (p : OnboardProfile) : List (String × Option String) :=
  [("business_name", p.business_name),
   ("contact_phone", p.contact_phone),
   ("business_address", p.business_address),
   ("city", p.city),
   ("state", p.state)]

/-- The required listing fields, in source order (src/unnamed/part_004 lines
    202-211). -/
def requiredListingFields (l : OnboardListing) : List (String × Option String) :=
  [("product_title", l.product_title),
   ("product_category", l.product_category),
   ("product_brand", l.product_brand),
   ("age", l.age),
   ("quantity", l.quantity),
   ("weight", l.weight),
   ("price", l.price),
   ("gender", l.gender)]

/-- The for-loop over a required-field list: the name of the first field
    whose value is falsy, if any. -/
def firstMissing : List (String × Option String) → Option String
  | [] => none
  | (name, v) :: rest => if falsyOpt v then some name else firstMissing rest

/-- The file-array check of the handler: the field is rejected when it is
    absent or its array of uploaded files is empty. -/
def filesFalsy : Option (List String) → Bool
  | none => true
  | some l => l.isEmpty

/-- The user columns touched by the onboarding transaction. -/
structure OUser where
  id : Nat
  email : String
  role : String
  isSeller : Bool
  businessName : Option String
  phoneNumber : Option String
  address : Option String
  city : Option String
  state : Option String
  location : Option String
  description : Option String
  profileImage : Option String
  identityDocument : Option String
  verificationStatus : Option String
  deriving DecidableEq, Repr

/-- The data of the tx.user.update call (src/unnamed/part_004 lines 249-265),
    computed from the request. -/
structure SellerUpdateData where
  businessName : Option String
  phoneNumber : Option String
  address : Option String
  city : Option String
  state : Option String
  location : Option String
  description : Option String
  profileImage : String
  identityDocument : Option String
  verificationStatus : Option String
  deriving DecidableEq, Repr

/-- The column values of the tx.product.create call (src/unnamed/part_004
    lines 268-283), computed from the request. -/
structure ProductData where
  title : String
  category : String
  breed : String
  age : String
  gender : String
  weight : String
  price : String
  location : String
  description : String
  imageUrl : String
  videoUrl : String
  sellerId : Nat
  deriving DecidableEq, Repr

/-- A row of the Product table: the autoincrement id plus the column data. -/
structure ProductRow where
  id : Nat
  data : ProductData
  deriving DecidableEq, Repr

/-- The database state seen by the onboarding handler. -/
structure OnboardDb where
  users : List OUser
  products : List ProductRow
  nextProductId : Nat
  deriving DecidableEq, Repr

/-- The seller-update data built by the handler (src/unnamed/part_004 lines
    237-244 and 249-265): the brand-image URL comes from the first uploaded
    brand_image file, the optional identity document from the first
    verification_id file, and verificationStatus is "pending" exactly when
    an identity document arrived. -/
def mkSellerUpdate (env : S3Env) (req : OnboardRequest) : SellerUpdateData :=
  let brandImageUrl := getFileUrl env ((req.brand_image.getD []).getD 0 "")
  let verificationIdUrl : Option String :=
    match req.verification_id with
    | some (k :: _) => some (getFileUrl env k)
    | _ => none
  { businessName := req.profile.business_name
    phoneNumber := req.profile.contact_phone
    address := req.profile.business_address
    city := req.profile.city
    state := req.profile.state
    location := if falsyOpt req.profile.location_coords then none
                else req.profile.location_coords
    description := req.profile.seller_uniqueness
    profileImage := brandImageUrl
    identityDocument := verificationIdUrl
    verificationStatus := if verificationIdUrl.isSome then some "pending" else none }

/-- The product data built by the handler (src/unnamed/part_004 lines
    268-283): product_brand maps to the breed column, the title doubles as
    the description, the location is city and state of the profile joined
    with a comma, the first product photo is the main image and the video
    URL falls back to the empty string. -/
def mkOnboardProduct (env : S3Env) (req : OnboardRequest) (uid : Nat) : ProductData :=
  { title := req.listing.product_title.getD ""
    category := req.listing.product_category.getD ""
    breed := req.listing.product_brand.getD ""
    age := req.listing.age.getD ""
    gender := req.listing.gender.getD ""
    weight := req.listing.weight.getD ""
    price := req.listing.price.getD ""
    location := req.profile.city.getD "" ++ ", " ++ req.profile.state.getD ""
    description := req.listing.product_title.getD ""
    imageUrl := getFileUrl env ((req.product_photos.getD []).getD 0 "")
    videoUrl := (match req.product_video with
                 | some (k :: _) => getFileUrl env k
                 | _ => "")
    sellerId := uid }

/-- Application of the seller-update data to a user row, with role "seller"
    and isSeller true as in the source update. -/
def applySellerUpdate (u : OUser) (d : SellerUpdateData) : OUser :=
  { u with
      role := "seller"
      isSeller := true
      businessName := d.businessName
      phoneNumber := d.phoneNumber
      address := d.address
      city := d.city
      state := d.state
      location := d.location
      description := d.description
      profileImage := some d.profileImage
      identityDocument := d.identityDocument
      verificationStatus := d.verificationStatus }

/-- A row write performed inside the onboarding transaction. -/
inductive TxWrite
  | updateUserSeller (uid : Nat) (d : SellerUpdateData)
  | createProduct (pd : ProductData)
  deriving DecidableEq, Repr

/-- One transaction write against the database.  tx.user.update throws when
    no row matches the id, which aborts the transaction, hence the none
    result; tx.product.create appends a row under the next autoincrement
    id. -/
def applyTxWrite (st : OnboardDb) : TxWrite → Option OnboardDb
  | .updateUserSeller uid d =>
    if st.users.any (fun u => u.id == uid) then
      some { st with users :=
               st.users.map (fun u => if u.id = uid then applySellerUpdate u d else u) }
    else none
  | .createProduct pd =>
    some { st with products := st.products ++ [⟨st.nextProductId, pd⟩],
                   nextProductId := st.nextProductId + 1 }

/-- Execution of the transaction body from write index i on.  failAt models
    an injected failure: the write with that index throws instead of
    executing, standing for a forced failure of, e.g., the product insert. -/
def runTxFrom (failAt : Option Nat) : Nat → OnboardDb → List TxWrite → Option OnboardDb
  | _, st, [] => some st
  | i, st, w :: ws =>
    if failAt = some i then none
    else match applyTxWrite st w with
      | none => none
      | some st2 => runTxFrom failAt (i + 1) st2 ws

/-- db.dollar-transaction semantics: all writes commit, or the state is kept
    unchanged when any write throws. -/
def runTx (failAt : Option Nat) (st : OnboardDb) (ws : List TxWrite) : Option OnboardDb :=
  runTxFrom failAt 0 st ws

/-- onboardSeller (src/unnamed/part_004 lines 164-300): parse the two JSON
    payloads (400 on bad JSON), check the required profile fields then the
    required listing fields in order (400 naming the first missing field),
    check that the brand image and at least one product photo arrived (400),
    then run the user update and the product insert in one transaction; a
    transaction failure surfaces as the catch branch returning 500 with the
    database rolled back. -/
def onboardSeller (env : S3Env) (uid : Nat) (req : OnboardRequest)
    (failAt : Option Nat) (st : OnboardDb) : HttpResponse × OnboardDb :=
  if ¬ req.jsonOk then
    (⟨400, "Invalid JSON data in listing or profile fields"⟩, st)
  else
    match firstMissing (requiredProfileFields req.profile) with
    | some f => (⟨400, "Missing required profile field: " ++ f⟩, st)
    | none =>
      match firstMissing (requiredListingFields req.listing) with
      | some f => (⟨400, "Missing required listing field: " ++ f⟩, st)
      | none =>
        if filesFalsy req.brand_image then
          (⟨400, "Brand image is required"⟩, st)
        else if filesFalsy req.product_photos then
          (⟨400, "At least one product photo is required"⟩, st)
        else
          match runTx failAt st
              [.updateUserSeller uid (mkSellerUpdate env req),
               .createProduct (mkOnboardProduct env req uid)] with
          | some st2 => (⟨200, "Seller onboarding completed successfully"⟩, st2)
          | none => (⟨500, "Error during seller onboarding"⟩, st)

/-- The response message of the validation stage names a field that is in
    fact required and missing (or a missing required file). -/
def namesMissingField (req : OnboardRequest) (msg : String) : Prop :=
  (∃ f v, msg = "Missing required profile field: " ++ f
     ∧ (f, v) ∈ requiredProfileFields req.profile ∧ falsyOpt v = true)
  ∨ (∃ f v, msg = "Missing required listing field: " ++ f
     ∧ (f, v) ∈ requiredListingFields req.listing ∧ falsyOpt v = true)
  ∨ (msg = "Brand image is required" ∧ filesFalsy req.brand_image = true)
  ∨ (msg = "At least one product photo is required" ∧ filesFalsy req.product_photos = true)

/-! ## Helper lemmas -/

/-- Splitting "Bearer " followed by a space-free token on the space character
    yields the word Bearer and then the token. -/
theorem splitOn_space_after_bearer (l : List Char)
    (hl : ∀ c ∈ l, (c == ' ') = false) :
    ("Bearer ".data ++ l).splitOn ' ' = ["Bearer".data, l] := by
  have h1 : "Bearer ".data ++ l = "Bearer".data ++ ' ' :: l := rfl
  have h2 : l.splitOnP (fun c => c == ' ') = [l] :=
    List.splitOnP_eq_single _ _ (by intro x hx; simp [hl x hx])
  rw [h1]
  show ("Bearer".data ++ ' ' :: l).splitOnP (fun c => c == ' ') = ["Bearer".data, l]
  rw [List.splitOnP_first _ _ (by decide) ' ' (by decide) l, h2]

/-- The extracted token of a Bearer-prefixed header with a space-free token
    is the token itself. -/
theorem extractBearer_bearer_append (t : String)
    (ht : ∀ c ∈ t.data, (c == ' ') = false) :
    extractBearer ("Bearer " ++ t) = t := by
  have hdata : ("Bearer " ++ t).data = "Bearer ".data ++ t.data := rfl
  have hpre : "Bearer ".data.isPrefixOf ("Bearer " ++ t).data = true := by
    rw [hdata]
    exact List.isPrefixOf_iff_prefix.2 (List.prefix_append _ _)
  have hsplit : ("Bearer " ++ t).data.splitOn ' ' = ["Bearer".data, t.data] := by
    rw [hdata]; exact splitOn_space_after_bearer t.data ht
  unfold extractBearer
  rw [if_pos hpre, hsplit]
  rfl

/-- After deleting a key, the map no longer yields a value for it. -/
theorem mapGet_mapDelete_self {V : Type} (k : String) (m : List (String × V)) :
    mapGet k (mapDelete k m) = none := by
  have h : (mapDelete k m).find? (fun e => e.1 == k) = none := by
    rw [List.find?_eq_none]
    intro a ha
    have hb := List.of_mem_filter ha
    simp only [Bool.not_eq_eq_eq_not, Bool.not_true, beq_eq_false_iff_ne] at hb
    simp [hb]
  simp [mapGet, h]

/-! ## Claim C9 -/

/-- C9 counterexample: generateToken signs "verification" tokens with the
    same JWT_RESET_SECRET as "reset" tokens and with a 1-hour expiry, not
    the 24-hour expiry the claim states, so the kinds neither all have
    distinct secrets nor the claimed expiries. -/
theorem generateToken_verification_shares_reset_secret :
    generateTokenSecret "verification" = generateTokenSecret "reset"
    ∧ generateTokenExpiresIn "verification" = "1h"
    ∧ generateTokenExpiresIn "verification" ≠ "24h" := by decide

/-- C9 (corrected): the issue operation signs access tokens with a 15-minute
    expiry under JWT_ACCESS_SECRET, refresh tokens with a 7-day expiry under
    JWT_REFRESH_SECRET, and both password-reset and email-verification
    tokens with a 1-hour expiry under the shared JWT_RESET_SECRET; access,
    refresh and reset secrets are pairwise distinct, but verification and
    reset share one. -/
theorem generateToken_kind_table :
    generateTokenExpiresIn "access" = "15m"
    ∧ generateTokenExpiresIn "refresh" = "7d"
    ∧ generateTokenExpiresIn "reset" = "1h"
    ∧ generateTokenExpiresIn "verification" = "1h"
    ∧ generateTokenSecret "access" = SigningSecret.jwtAccessSecret
    ∧ generateTokenSecret "refresh" = SigningSecret.jwtRefreshSecret
    ∧ generateTokenSecret "reset" = SigningSecret.jwtResetSecret
    ∧ generateTokenSecret "verification" = SigningSecret.jwtResetSecret
    ∧ generateTokenSecret "access" ≠ generateTokenSecret "refresh"
    ∧ generateTokenSecret "access" ≠ generateTokenSecret "reset"
    ∧ generateTokenSecret "refresh" ≠ generateTokenSecret "reset" := by decide

/-! ## Claim C7 -/

/-- C7 counterexample: a present token that fails verification is answered
    with status 400 "Invalid token", not with the 401 the claim states. -/
theorem loginRequired_invalid_token_gets_400 :
    loginRequired (fun _ => (none : Option Nat)) (some "sometoken")
      = MwOutcome.respond 400 "Invalid token"
    ∧ (MwOutcome.respond 400 "Invalid token" : MwOutcome Nat)
      ≠ MwOutcome.respond 401 "Invalid token" := by decide

/-- C7 (corrected): loginRequired accepts the Authorization header raw or
    with a Bearer prefix; it fails closed with 401 when the header is
    absent or empty or the extracted token is empty, and with 400 (not 401)
    when the token fails verification; on success it attaches the verified
    claims and calls the next handler. -/
theorem loginRequired_gate_behavior {C : Type} (verify : String → Option C) :
    (loginRequired verify none
       = MwOutcome.respond 401 "Access denied. No token provided.")
    ∧ (loginRequired verify (some "")
       = MwOutcome.respond 401 "Access denied. No token provided.")
    ∧ (∀ h, h ≠ "" → extractBearer h = "" →
        loginRequired verify (some h)
          = MwOutcome.respond 401 "Access denied. Token is missing or malformed.")
    ∧ (∀ h, h ≠ "" → extractBearer h ≠ "" → verify (extractBearer h) = none →
        loginRequired verify (some h) = MwOutcome.respond 400 "Invalid token")
    ∧ (∀ h c, h ≠ "" → extractBearer h ≠ "" → verify (extractBearer h) = some c →
        loginRequired verify (some h) = MwOutcome.next c)
    ∧ (∀ t c, t ≠ "" → (∀ ch ∈ t.data, (ch == ' ') = false) → verify t = some c →
        loginRequired verify (some ("Bearer " ++ t)) = MwOutcome.next c) := by
  refine ⟨rfl, by simp [loginRequired, falsyOpt], ?_, ?_, ?_, ?_⟩
  · intro h hne hex
    have hf : falsyOpt (some h) = false := by simp [falsyOpt, hne]
    simp [loginRequired, hf, hex]
  · intro h hne hex hv
    have hf : falsyOpt (some h) = false := by simp [falsyOpt, hne]
    simp [loginRequired, hf, hex, hv]
  · intro h c hne hex hv
    have hf : falsyOpt (some h) = false := by simp [falsyOpt, hne]
    simp [loginRequired, hf, hex, hv]
  · intro t c hne hsp hv
    have hext : extractBearer ("Bearer " ++ t) = t := extractBearer_bearer_append t hsp
    have hne2 : ("Bearer " ++ t) ≠ "" := by
      intro hcon
      have : ("Bearer " ++ t).data = [] := by rw [hcon]
      simp [String.data_append] at this
    have hf : falsyOpt (some ("Bearer " ++ t)) = false := by simp [falsyOpt, hne2]
    have hex : extractBearer ("Bearer " ++ t) ≠ "" := by rw [hext]; exact hne
    simp [loginRequired, hf, hex, hext, hne, hv]

/-- C7 witness: a Bearer-prefixed header with a verifying token reaches the
    next handler carrying the verified claims. -/
theorem loginRequired_gate_behavior_witness :
    loginRequired (fun s => if s = "tok" then some 7 else none) (some ("Bearer " ++ "tok"))
      = MwOutcome.next 7 :=
  (loginRequired_gate_behavior (fun s => if s = "tok" then some 7 else none)).2.2.2.2.2
    "tok" 7 (by decide) (by decide) (by simp)

/-! ## Claim C8 -/

/-- C8 (confirmed): preventLoggedUser passes through silently when no
    Authorization token is present (absent or empty header), and a 401
    rejection occurs only when the presented token verifies, i.e. only when
    a valid access token is present. -/
theorem preventLoggedUser_gate {C : Type} (verify : String → Option C) :
    preventLoggedUser verify none = GateOutcome.passThrough
    ∧ preventLoggedUser verify (some "") = GateOutcome.passThrough
    ∧ (∀ h b, preventLoggedUser verify (some h) = GateOutcome.respond 401 b →
        ∃ c, verify h = some c) := by
  refine ⟨rfl, by simp [preventLoggedUser, falsyOpt], ?_⟩
  intro h b heq
  by_cases hne : h = ""
  · subst hne
    simp [preventLoggedUser, falsyOpt] at heq
  · have hf : falsyOpt (some h) = false := by simp [falsyOpt, hne]
    cases hv : verify h with
    | some c => exact ⟨c, rfl⟩
    | none => simp [preventLoggedUser, hf, hv] at heq

/-- C8 witness: with a verifying token the gate responds 401, and the
    witness extracts the valid claims that theorem preventLoggedUser_gate
    guarantees to exist. -/
theorem preventLoggedUser_gate_witness :
    ∃ c : Nat, (fun s => if s = "v" then some 3 else none) "v" = some c :=
  (preventLoggedUser_gate (fun s => if s = "v" then some 3 else none)).2.2
    "v" "Access denied" (by decide)

/-! ## Claim C4 -/

/-- C4 (confirmed): for a verification token that is unknown (no pending
    record) or whose pending record is past the 24-hour expiry, verifyEmail
    answers 400 and creates no Account row: the users table is unchanged. -/
theorem verifyEmail_expired_or_unknown_no_account
    (genAccess genRefresh : AuthUser → String) (token : String) (now : Nat)
    (st : AuthState)
    (h : mapGet token st.unverifiedUsers = none
       ∨ ∃ d, mapGet token st.unverifiedUsers = some d
            ∧ now - d.createdAt > 24 * 60 * 60 * 1000) :
    (verifyEmail genAccess genRefresh token now st).1.status = 400
    ∧ (verifyEmail genAccess genRefresh token now st).2.users = st.users := by
  rcases h with h | ⟨d, hd, hexp⟩
  · simp [verifyEmail, h]
  · simp [verifyEmail, hd, hexp]

/-- C4 witness: an unknown token against an empty pending map is rejected
    with 400 and the users table stays empty. -/
theorem verifyEmail_expired_or_unknown_no_account_witness :
    (verifyEmail (fun _ => "a") (fun _ => "r") "tk" 0 ⟨[], [], [], [], 0⟩).1.status = 400
    ∧ (verifyEmail (fun _ => "a") (fun _ => "r") "tk" 0 ⟨[], [], [], [], 0⟩).2.users = [] :=
  verifyEmail_expired_or_unknown_no_account (fun _ => "a") (fun _ => "r") "tk" 0
    ⟨[], [], [], [], 0⟩ (Or.inl (by decide))

/-! ## Claim C6 -/

/-- C6 (confirmed): a password-reset token succeeds at most once: a first
    use that finds a fresh entry and an existing user answers 200, and any
    second use of the same token afterwards answers 400 "Invalid or expired
    reset link" and leaves the whole state, in particular every stored
    password, unchanged. -/
theorem resetPassword_token_single_use
    (hash : String → String) (genAccess genRefresh : AuthUser → String)
    (token p1 p2 : String) (now1 now2 : Nat) (st : AuthState) (e : ResetEntry)
    (he : mapGet token st.passwordResetTokens = some e)
    (hfresh : ¬ now1 - e.createdAt > 60 * 60 * 1000)
    (huser : ∃ u ∈ st.users, u.id = e.userId) :
    (resetPassword hash genAccess genRefresh token p1 now1 st).1.status = 200
    ∧ (resetPassword hash genAccess genRefresh token p2 now2
        (resetPassword hash genAccess genRefresh token p1 now1 st).2).1
      = ⟨400, "Invalid or expired reset link", none, none⟩
    ∧ (resetPassword hash genAccess genRefresh token p2 now2
        (resetPassword hash genAccess genRefresh token p1 now1 st).2).2
      = (resetPassword hash genAccess genRefresh token p1 now1 st).2 := by
  have hfind : ((st.users.map
      (fun v => if v.id = e.userId then { v with password := hash p1 } else v)).find?
      (fun v => v.id == e.userId)).isSome := by
    rw [List.find?_isSome]
    obtain ⟨u, hu, hid⟩ := huser
    refine ⟨(if u.id = e.userId then { u with password := hash p1 } else u),
            List.mem_map_of_mem _ hu, ?_⟩
    simp [hid]
  obtain ⟨u, hu⟩ := Option.isSome_iff_exists.mp hfind
  have h1 : resetPassword hash genAccess genRefresh token p1 now1 st
      = (⟨200, "Password reset successful", some (genAccess u), some (genRefresh u)⟩,
         { st with
             users := st.users.map
               (fun v => if v.id = e.userId then { v with password := hash p1 } else v),
             refreshTokens := st.refreshTokens.map
               (fun r => if r.1 = u.id then (r.1, genRefresh u) else r),
             passwordResetTokens := mapDelete token st.passwordResetTokens }) := by
    simp [resetPassword, he, hfresh, hu]
  have hnone : mapGet token (mapDelete token st.passwordResetTokens) = none :=
    mapGet_mapDelete_self _ _
  refine ⟨by rw [h1], ?_, ?_⟩
  · rw [h1]
    simp [resetPassword, hnone]
  · rw [h1]
    simp [resetPassword, hnone]

/-- C6 witness: on a concrete state the first use of reset token "rt"
    answers 200 and the second use answers 400 without touching the state. -/
theorem resetPassword_token_single_use_witness :
    (resetPassword (fun s => s) (fun _ => "a") (fun _ => "r") "rt" "new1" 10
       ⟨[⟨1, "u", "a@x", "h", "user"⟩], [], [], [("rt", ⟨1, 0⟩)], 2⟩).1.status = 200
    ∧ (resetPassword (fun s => s) (fun _ => "a") (fun _ => "r") "rt" "new2" 20
        (resetPassword (fun s => s) (fun _ => "a") (fun _ => "r") "rt" "new1" 10
          ⟨[⟨1, "u", "a@x", "h", "user"⟩], [], [], [("rt", ⟨1, 0⟩)], 2⟩).2).1
      = ⟨400, "Invalid or expired reset link", none, none⟩
    ∧ (resetPassword (fun s => s) (fun _ => "a") (fun _ => "r") "rt" "new2" 20
        (resetPassword (fun s => s) (fun _ => "a") (fun _ => "r") "rt" "new1" 10
          ⟨[⟨1, "u", "a@x", "h", "user"⟩], [], [], [("rt", ⟨1, 0⟩)], 2⟩).2).2
      = (resetPassword (fun s => s) (fun _ => "a") (fun _ => "r") "rt" "new1" 10
          ⟨[⟨1, "u", "a@x", "h", "user"⟩], [], [], [("rt", ⟨1, 0⟩)], 2⟩).2 :=
  resetPassword_token_single_use (fun s => s) (fun _ => "a") (fun _ => "r")
    "rt" "new1" "new2" 10 20
    ⟨[⟨1, "u", "a@x", "h", "user"⟩], [], [], [("rt", ⟨1, 0⟩)], 2⟩ ⟨1, 0⟩
    (by decide) (by decide) (by decide)

/-! ## Claim C10 -/

/-- C10 (confirmed): forgotPassword answers a registered and an unregistered
    email with the identical 200 response, so the response does not reveal
    whether an account exists; the unregistered case leaves the state
    untouched, while the reset entry is produced only internally in the
    registered case. -/
theorem forgotPassword_indistinguishable (genReset : Nat → String)
    (e1 e2 : String) (now : Nat) (st : AuthState)
    (h1 : ∃ u ∈ st.users, u.email = e1)
    (h2 : ∀ u ∈ st.users, u.email ≠ e2) :
    (forgotPassword genReset e1 now st).1 = (forgotPassword genReset e2 now st).1
    ∧ (forgotPassword genReset e1 now st).1
      = ⟨200, "If your email is registered, you will receive a password reset link",
          none, none⟩
    ∧ (forgotPassword genReset e2 now st).2 = st := by
  have hf2 : st.users.find? (fun u => u.email == e2) = none := by
    rw [List.find?_eq_none]
    intro u hu
    simp [h2 u hu]
  have hf1 : (st.users.find? (fun u => u.email == e1)).isSome := by
    rw [List.find?_isSome]
    obtain ⟨u, hu, he⟩ := h1
    exact ⟨u, hu, by simp [he]⟩
  obtain ⟨u, hu⟩ := Option.isSome_iff_exists.mp hf1
  refine ⟨?_, ?_, ?_⟩ <;> simp [forgotPassword, hu, hf2]

/-- C10 witness: with one registered account, the responses for its email
    and for an unknown email coincide. -/
theorem forgotPassword_indistinguishable_witness :
    (forgotPassword (fun _ => "rt") "a@x" 0
       ⟨[⟨1, "u", "a@x", "h", "user"⟩], [], [], [], 2⟩).1
    = (forgotPassword (fun _ => "rt") "b@y" 0
       ⟨[⟨1, "u", "a@x", "h", "user"⟩], [], [], [], 2⟩).1
    ∧ (forgotPassword (fun _ => "rt") "a@x" 0
       ⟨[⟨1, "u", "a@x", "h", "user"⟩], [], [], [], 2⟩).1
      = ⟨200, "If your email is registered, you will receive a password reset link",
          none, none⟩
    ∧ (forgotPassword (fun _ => "rt") "b@y" 0
       ⟨[⟨1, "u", "a@x", "h", "user"⟩], [], [], [], 2⟩).2
      = ⟨[⟨1, "u", "a@x", "h", "user"⟩], [], [], [], 2⟩ :=
  forgotPassword_indistinguishable (fun _ => "rt") "a@x" "b@y" 0
    ⟨[⟨1, "u", "a@x", "h", "user"⟩], [], [], [], 2⟩ (by decide) (by decide)

/-! ## Refresh-token helper lemmas -/

/-- authRefresh rejects with 401 and leaves the state alone whenever, for
    the account id the presented token verifies to, no stored row carries
    that token. -/
theorem authRefresh_reject_of_mismatch
    (verifyRefresh : String → Option Nat) (genAccess genRefresh : AuthUser → String)
    (token : String) (st : AuthState)
    (h : ∀ uid, verifyRefresh token = some uid →
          ∀ r ∈ st.refreshTokens, r.1 = uid → r.2 ≠ token) :
    (authRefresh verifyRefresh genAccess genRefresh (some token) st).1.status = 401
    ∧ (authRefresh verifyRefresh genAccess genRefresh (some token) st).1.accessToken = none
    ∧ (authRefresh verifyRefresh genAccess genRefresh (some token) st).1.refreshCookie = none
    ∧ (authRefresh verifyRefresh genAccess genRefresh (some token) st).2 = st := by
  by_cases hemp : token = ""
  · subst hemp
    exact ⟨rfl, rfl, rfl, rfl⟩
  · have hfb : falsyOpt (some token) = false := by simp [falsyOpt, hemp]
    cases hv : verifyRefresh token with
    | none => refine ⟨?_, ?_, ?_, ?_⟩ <;> simp [authRefresh, hfb, hv]
    | some uid =>
      cases hf : st.refreshTokens.find? (fun r => r.1 == uid) with
      | none => refine ⟨?_, ?_, ?_, ?_⟩ <;> simp [authRefresh, hfb, hv, hf]
      | some dbTok =>
        have hmem := List.mem_of_find?_eq_some hf
        have hpk : dbTok.1 = uid := by simpa using List.find?_some hf
        have hne2 : dbTok.2 ≠ token := h uid hv dbTok hmem hpk
        refine ⟨?_, ?_, ?_, ?_⟩ <;> simp [authRefresh, hfb, hv, hf, hne2]

/-- Every row the upsert leaves for the upserted account carries the new
    token. -/
theorem upsertRefreshToken_rows_for_user (uid : Nat) (tok : String)
    (rows : List (Nat × String)) :
    ∀ r ∈ upsertRefreshToken uid tok rows, r.1 = uid → r.2 = tok := by
  intro r hr hid
  unfold upsertRefreshToken at hr
  by_cases hany : rows.any (fun s => s.1 == uid) = true
  · rw [if_pos hany] at hr
    obtain ⟨s, hs, hsr⟩ := List.mem_map.mp hr
    by_cases hsid : s.1 = uid
    · rw [if_pos hsid] at hsr
      rw [← hsr]
    · rw [if_neg hsid] at hsr
      subst hsr
      exact absurd hid hsid
  · rw [if_neg hany] at hr
    rcases List.mem_append.mp hr with hmem | hmem
    · exfalso
      exact hany (List.any_eq_true.mpr ⟨r, hmem, by simp [hid]⟩)
    · have : r = (uid, tok) := by simpa using hmem
      rw [this]

/-- Overwriting the token of the rows of one account does not change how
    many rows any account has. -/
theorem filter_key_length_overwrite (uid v : Nat) (tok : String)
    (rows : List (Nat × String)) :
    ((rows.map (fun r => if r.1 = uid then (uid, tok) else r)).filter
        (fun r => r.1 == v)).length
      = (rows.filter (fun r => r.1 == v)).length := by
  rw [← List.countP_eq_length_filter, ← List.countP_eq_length_filter, List.countP_map]
  refine List.countP_congr ?_
  intro r _
  by_cases hru : r.1 = uid
  · simp [Function.comp, hru]
  · simp [Function.comp, hru]

/-- The upsert preserves the at-most-one-row-per-account invariant. -/
theorem upsertRefreshToken_atMostOne (uid : Nat) (tok : String)
    (rows : List (Nat × String)) (h : atMostOnePerUser rows) :
    atMostOnePerUser (upsertRefreshToken uid tok rows) := by
  intro v
  unfold upsertRefreshToken
  by_cases hany : rows.any (fun s => s.1 == uid) = true
  · rw [if_pos hany, filter_key_length_overwrite]
    exact h v
  · rw [if_neg hany, List.filter_append]
    by_cases hvu : v = uid
    · subst hvu
      have hnil : rows.filter (fun r => r.1 == v) = [] := by
        rw [List.filter_eq_nil_iff]
        intro a ha hc
        exact hany (List.any_eq_true.mpr ⟨a, ha, hc⟩)
      simp [hnil]
    · have hlast : (((uid, tok) : Nat × String).1 == v) = false := by
        simp
        exact fun hc => hvu hc.symm
      simp [hlast]
      exact h v

/-! ## Claim C5 -/

/-- C5 (confirmed): a refresh request whose token does not equal the token
    stored for the account it verifies to is rejected with 401 and no new
    tokens are issued and the state is unchanged, even though the token has
    a valid signature and is unexpired (verifyRefresh succeeded on it). -/
theorem authRefresh_nonmatching_token_rejected
    (verifyRefresh : String → Option Nat) (genAccess genRefresh : AuthUser → String)
    (token : String) (uid : Nat) (st : AuthState)
    (hsig : verifyRefresh token = some uid)
    (hmismatch : ∀ r ∈ st.refreshTokens, r.1 = uid → r.2 ≠ token) :
    (authRefresh verifyRefresh genAccess genRefresh (some token) st).1.status = 401
    ∧ (authRefresh verifyRefresh genAccess genRefresh (some token) st).1.accessToken = none
    ∧ (authRefresh verifyRefresh genAccess genRefresh (some token) st).1.refreshCookie = none
    ∧ (authRefresh verifyRefresh genAccess genRefresh (some token) st).2 = st := by
  refine authRefresh_reject_of_mismatch verifyRefresh genAccess genRefresh token st ?_
  intro uid2 hv r hr hrid
  rw [hsig] at hv
  injection hv with hv2
  subst hv2
  exact hmismatch r hr hrid

/-- C5 witness: presenting token t1 while t2 is stored for the verified
    account is rejected with 401 and changes nothing. -/
theorem authRefresh_nonmatching_token_rejected_witness :
    (authRefresh (fun s => if s = "t1" then some 1 else none) (fun _ => "a") (fun _ => "r")
       (some "t1") ⟨[], [(1, "t2")], [], [], 0⟩).1.status = 401
    ∧ (authRefresh (fun s => if s = "t1" then some 1 else none) (fun _ => "a") (fun _ => "r")
       (some "t1") ⟨[], [(1, "t2")], [], [], 0⟩).1.accessToken = none
    ∧ (authRefresh (fun s => if s = "t1" then some 1 else none) (fun _ => "a") (fun _ => "r")
       (some "t1") ⟨[], [(1, "t2")], [], [], 0⟩).1.refreshCookie = none
    ∧ (authRefresh (fun s => if s = "t1" then some 1 else none) (fun _ => "a") (fun _ => "r")
       (some "t1") ⟨[], [(1, "t2")], [], [], 0⟩).2 = ⟨[], [(1, "t2")], [], [], 0⟩ :=
  authRefresh_nonmatching_token_rejected (fun s => if s = "t1" then some 1 else none)
    (fun _ => "a") (fun _ => "r") "t1" 1 ⟨[], [(1, "t2")], [], [], 0⟩
    (by decide) (by decide)

/-! ## Claim C2 -/

/-- C2 counterexample: in the userController login path, with token t1
    already stored for account 1 (written by the auth controller flow), a
    further login invalidates nothing: createRefreshToken throws because its
    create data lacks the required token column, the handler crashes on the
    null result with no response of its own, the database is unchanged, and
    t1 is still stored and valid afterwards — so this login neither deletes
    nor overwrites the previously stored refresh token, and a second login
    does not invalidate the token a previous flow issued. -/
theorem userLogin_keeps_previous_refresh_token :
    (UserCtrl.login (fun p h => p == h) (fun _ => "at") "a@x" "pw" 5
       ⟨[⟨1, "u", "a@x", "pw", false⟩], [⟨0, "t1", 1, 0, 1000000000⟩]⟩).1 = none
    ∧ (UserCtrl.login (fun p h => p == h) (fun _ => "at") "a@x" "pw" 5
       ⟨[⟨1, "u", "a@x", "pw", false⟩], [⟨0, "t1", 1, 0, 1000000000⟩]⟩).2
      = ⟨[⟨1, "u", "a@x", "pw", false⟩], [⟨0, "t1", 1, 0, 1000000000⟩]⟩
    ∧ (UserCtrl.getRefreshToken "t1" 5
        (UserCtrl.login (fun p h => p == h) (fun _ => "at") "a@x" "pw" 5
          ⟨[⟨1, "u", "a@x", "pw", false⟩], [⟨0, "t1", 1, 0, 1000000000⟩]⟩).2)
      = some ⟨0, "t1", 1, 0, 1000000000⟩ := by decide

/-- C2 (corrected): the auth controller login does rotate: it stores the
    fresh refresh token by upsert keyed on the account id, so afterwards
    every stored row of that account carries the fresh token, the
    at-most-one-row-per-account invariant is preserved, and a refresh
    presenting any other token, in particular the one a previous login
    issued, is rejected with 401.  The userController login path instead
    performs no rotation at all: its createRefreshToken call always throws,
    so the login crashes, stores nothing, and leaves the previously stored
    refresh token valid (see the counterexample). -/
theorem authLogin_rotates_refresh_token
    (compare : String → String → Bool) (genAccess genRefresh : AuthUser → String)
    (verifyRefresh : String → Option Nat)
    (email password : String) (st : AuthState) (u : AuthUser)
    (hemail : email ≠ "") (hpwd : password ≠ "")
    (hfind : st.users.find? (fun v => v.email == email) = some u)
    (hcmp : compare password u.password = true) :
    ((authLogin compare genAccess genRefresh email password st).2.refreshTokens
       = upsertRefreshToken u.id (genRefresh u) st.refreshTokens)
    ∧ (∀ r ∈ (authLogin compare genAccess genRefresh email password st).2.refreshTokens,
         r.1 = u.id → r.2 = genRefresh u)
    ∧ (atMostOnePerUser st.refreshTokens →
        atMostOnePerUser (authLogin compare genAccess genRefresh email password st).2.refreshTokens)
    ∧ (∀ oldTok, oldTok ≠ genRefresh u → verifyRefresh oldTok = some u.id →
        (authRefresh verifyRefresh genAccess genRefresh (some oldTok)
           (authLogin compare genAccess genRefresh email password st).2).1.status = 401) := by
  have hlog : authLogin compare genAccess genRefresh email password st
      = (⟨200, "Login successful", some (genAccess u), some (genRefresh u)⟩,
         { st with refreshTokens := upsertRefreshToken u.id (genRefresh u) st.refreshTokens }) := by
    simp [authLogin, hemail, hpwd, hfind, hcmp]
  refine ⟨by rw [hlog], ?_, ?_, ?_⟩
  · rw [hlog]
    exact upsertRefreshToken_rows_for_user u.id (genRefresh u) st.refreshTokens
  · rw [hlog]
    exact upsertRefreshToken_atMostOne u.id (genRefresh u) st.refreshTokens
  · intro oldTok hne hver
    rw [hlog]
    refine (authRefresh_reject_of_mismatch verifyRefresh genAccess genRefresh oldTok _ ?_).1
    intro uid2 hv r hr hrid
    rw [hver] at hv
    injection hv with hv2
    subst hv2
    have hr2 := upsertRefreshToken_rows_for_user u.id (genRefresh u) st.refreshTokens r hr hrid
    rw [hr2]
    exact fun hc => hne hc.symm

/-- C2 witness: on a concrete state storing token t1 for account 1, a login
    issuing t2 makes a subsequent refresh with t1 fail with 401. -/
theorem authLogin_rotates_refresh_token_witness :
    (authRefresh (fun s => if s = "t1" then some 1 else none) (fun _ => "a") (fun _ => "t2")
       (some "t1")
       (authLogin (fun p h => p == h) (fun _ => "a") (fun _ => "t2") "a@x" "pw"
          ⟨[⟨1, "u", "a@x", "pw", "user"⟩], [(1, "t1")], [], [], 2⟩).2).1.status = 401 :=
  (authLogin_rotates_refresh_token (fun p h => p == h) (fun _ => "a") (fun _ => "t2")
      (fun s => if s = "t1" then some 1 else none) "a@x" "pw"
      ⟨[⟨1, "u", "a@x", "pw", "user"⟩], [(1, "t1")], [], [], 2⟩
      ⟨1, "u", "a@x", "pw", "user"⟩
      (by decide) (by decide) (by decide) (by decide)).2.2.2
    "t1" (by decide) (by decide)

/-! ## Onboarding helper lemmas -/

/-- The field name firstMissing yields belongs to the list and its value is
    falsy. -/
theorem firstMissing_some_mem (l : List (String × Option String)) (f : String)
    (h : firstMissing l = some f) : ∃ v, (f, v) ∈ l ∧ falsyOpt v = true := by
  induction l with
  | nil => simp [firstMissing] at h
  | cons a rest ih =>
    obtain ⟨n, v⟩ := a
    by_cases hv : falsyOpt v = true
    · simp [firstMissing, hv] at h
      subst h
      exact ⟨v, List.mem_cons_self _ _, hv⟩
    · simp [firstMissing, hv] at h
      obtain ⟨w, hw, hfw⟩ := ih h
      exact ⟨w, List.mem_cons_of_mem _ hw, hfw⟩

/-! ## Claim C3 -/

/-- C3 (confirmed): an onboarding request with any required profile or
    listing field missing, or a required file absent, is answered with 400,
    the message names an offending field, and the database state is
    returned unchanged: no user row is touched and no product row is
    created. -/
theorem onboardSeller_missing_field_no_writes
    (env : S3Env) (uid : Nat) (req : OnboardRequest) (failAt : Option Nat) (st : OnboardDb)
    (hjson : req.jsonOk = true)
    (hmiss : firstMissing (requiredProfileFields req.profile) ≠ none
           ∨ firstMissing (requiredListingFields req.listing) ≠ none
           ∨ filesFalsy req.brand_image = true
           ∨ filesFalsy req.product_photos = true) :
    (onboardSeller env uid req failAt st).1.status = 400
    ∧ (onboardSeller env uid req failAt st).2 = st
    ∧ namesMissingField req (onboardSeller env uid req failAt st).1.message := by
  cases hp : firstMissing (requiredProfileFields req.profile) with
  | some f =>
    obtain ⟨v, hmem, hfv⟩ := firstMissing_some_mem _ _ hp
    have hres : onboardSeller env uid req failAt st
        = (⟨400, "Missing required profile field: " ++ f⟩, st) := by
      simp [onboardSeller, hjson, hp]
    refine ⟨by rw [hres], by rw [hres], ?_⟩
    rw [hres]
    exact Or.inl ⟨f, v, rfl, hmem, hfv⟩
  | none =>
    cases hl : firstMissing (requiredListingFields req.listing) with
    | some f =>
      obtain ⟨v, hmem, hfv⟩ := firstMissing_some_mem _ _ hl
      have hres : onboardSeller env uid req failAt st
          = (⟨400, "Missing required listing field: " ++ f⟩, st) := by
        simp [onboardSeller, hjson, hp, hl]
      refine ⟨by rw [hres], by rw [hres], ?_⟩
      rw [hres]
      exact Or.inr (Or.inl ⟨f, v, rfl, hmem, hfv⟩)
    | none =>
      by_cases hb : filesFalsy req.brand_image = true
      · have hres : onboardSeller env uid req failAt st
            = (⟨400, "Brand image is required"⟩, st) := by
          simp [onboardSeller, hjson, hp, hl, hb]
        refine ⟨by rw [hres], by rw [hres], ?_⟩
        rw [hres]
        exact Or.inr (Or.inr (Or.inl ⟨rfl, hb⟩))
      · by_cases hph : filesFalsy req.product_photos = true
        · have hres : onboardSeller env uid req failAt st
              = (⟨400, "At least one product photo is required"⟩, st) := by
            simp [onboardSeller, hjson, hp, hl, hb, hph]
          refine ⟨by rw [hres], by rw [hres], ?_⟩
          rw [hres]
          exact Or.inr (Or.inr (Or.inr ⟨rfl, hph⟩))
        · exfalso
          rcases hmiss with h | h | h | h
          · exact h hp
          · exact h hl
          · exact hb h
          · exact hph h

/-- C3 witness: a request missing business_name is rejected with 400, the
    state is untouched and the message names a missing field. -/
theorem onboardSeller_missing_field_no_writes_witness :
    (onboardSeller ⟨"b", "r"⟩ 1
       ⟨true, ⟨none, some "07", some "Addr", some "City", some "St", none, none⟩,
        ⟨some "T", some "Cat", some "Br", some "2", some "1", some "3", some "10", some "m"⟩,
        some ["b1"], some ["p1"], none, none⟩ none
       ⟨[⟨1, "a@x", "user", false, none, none, none, none, none, none, none, none, none, none⟩],
        [], 0⟩).1.status = 400
    ∧ (onboardSeller ⟨"b", "r"⟩ 1
       ⟨true, ⟨none, some "07", some "Addr", some "City", some "St", none, none⟩,
        ⟨some "T", some "Cat", some "Br", some "2", some "1", some "3", some "10", some "m"⟩,
        some ["b1"], some ["p1"], none, none⟩ none
       ⟨[⟨1, "a@x", "user", false, none, none, none, none, none, none, none, none, none, none⟩],
        [], 0⟩).2
      = ⟨[⟨1, "a@x", "user", false, none, none, none, none, none, none, none, none, none, none⟩],
         [], 0⟩
    ∧ namesMissingField
        ⟨true, ⟨none, some "07", some "Addr", some "City", some "St", none, none⟩,
         ⟨some "T", some "Cat", some "Br", some "2", some "1", some "3", some "10", some "m"⟩,
         some ["b1"], some ["p1"], none, none⟩
        (onboardSeller ⟨"b", "r"⟩ 1
          ⟨true, ⟨none, some "07", some "Addr", some "City", some "St", none, none⟩,
           ⟨some "T", some "Cat", some "Br", some "2", some "1", some "3", some "10", some "m"⟩,
           some ["b1"], some ["p1"], none, none⟩ none
          ⟨[⟨1, "a@x", "user", false, none, none, none, none, none, none, none, none, none, none⟩],
           [], 0⟩).1.message :=
  onboardSeller_missing_field_no_writes ⟨"b", "r"⟩ 1
    ⟨true, ⟨none, some "07", some "Addr", some "City", some "St", none, none⟩,
     ⟨some "T", some "Cat", some "Br", some "2", some "1", some "3", some "10", some "m"⟩,
     some ["b1"], some ["p1"], none, none⟩ none
    ⟨[⟨1, "a@x", "user", false, none, none, none, none, none, none, none, none, none, none⟩],
     [], 0⟩
    (by decide) (Or.inl (by decide))

/-! ## Claim C1 -/

/-- C1 (confirmed): an onboarding request passing every field and file
    validation, for an existing account, commits exactly one new Product
    row owned by that account together with role seller and isSeller true
    on the account, in one transaction; when the transaction fails at
    either write, in particular at the product insert, the handler answers
    500 and the database keeps its prior state, so the seller-field update
    is rolled back with it. -/
theorem onboardSeller_success_atomic
    (env : S3Env) (uid : Nat) (req : OnboardRequest) (failAt : Option Nat) (st : OnboardDb)
    (hjson : req.jsonOk = true)
    (hp : firstMissing (requiredProfileFields req.profile) = none)
    (hl : firstMissing (requiredListingFields req.listing) = none)
    (hb : filesFalsy req.brand_image = false)
    (hph : filesFalsy req.product_photos = false)
    (hu : st.users.any (fun u => u.id == uid) = true) :
    (failAt = none →
       (onboardSeller env uid req failAt st).1
         = ⟨200, "Seller onboarding completed successfully"⟩
       ∧ (onboardSeller env uid req failAt st).2.products
         = st.products ++ [⟨st.nextProductId, mkOnboardProduct env req uid⟩]
       ∧ (mkOnboardProduct env req uid).sellerId = uid
       ∧ (∀ u ∈ (onboardSeller env uid req failAt st).2.users,
            u.id = uid → u.isSeller = true ∧ u.role = "seller"))
    ∧ (∀ k, failAt = some k → k ≤ 1 →
       (onboardSeller env uid req failAt st).1 = ⟨500, "Error during seller onboarding"⟩
       ∧ (onboardSeller env uid req failAt st).2 = st) := by
  constructor
  · intro hfa
    subst hfa
    have hres : onboardSeller env uid req none st
        = (⟨200, "Seller onboarding completed successfully"⟩,
           { st with
               users := st.users.map (fun u => if u.id = uid
                          then applySellerUpdate u (mkSellerUpdate env req) else u),
               products := st.products ++ [⟨st.nextProductId, mkOnboardProduct env req uid⟩],
               nextProductId := st.nextProductId + 1 }) := by
      simp [onboardSeller, hjson, hp, hl, hb, hph, runTx, runTxFrom, applyTxWrite, hu]
    refine ⟨by rw [hres], by rw [hres], rfl, ?_⟩
    rw [hres]
    intro u hu2 hid
    obtain ⟨v, hv, hvu⟩ := List.mem_map.mp hu2
    by_cases hvid : v.id = uid
    · rw [if_pos hvid] at hvu
      rw [← hvu]
      exact ⟨rfl, rfl⟩
    · rw [if_neg hvid] at hvu
      subst hvu
      exact absurd hid hvid
  · intro k hfa hk
    subst hfa
    interval_cases k
    · have hres : onboardSeller env uid req (some 0) st
          = (⟨500, "Error during seller onboarding"⟩, st) := by
        simp [onboardSeller, hjson, hp, hl, hb, hph, runTx, runTxFrom]
      exact ⟨by rw [hres], by rw [hres]⟩
    · have hres : onboardSeller env uid req (some 1) st
          = (⟨500, "Error during seller onboarding"⟩, st) := by
        simp [onboardSeller, hjson, hp, hl, hb, hph, runTx, runTxFrom, applyTxWrite, hu]
      exact ⟨by rw [hres], by rw [hres]⟩

/-- C1 witness: a fully valid request commits the 200 response and exactly
    one product row for account 1, and with a failure injected at the
    product insert the state keeps its prior value. -/
theorem onboardSeller_success_atomic_witness :
    (onboardSeller ⟨"b", "r"⟩ 1
       ⟨true, ⟨some "BN", some "07", some "Addr", some "City", some "St", none, none⟩,
        ⟨some "T", some "Cat", some "Br", some "2", some "1", some "3", some "10", some "m"⟩,
        some ["b1"], some ["p1"], none, none⟩ none
       ⟨[⟨1, "a@x", "user", false, none, none, none, none, none, none, none, none, none, none⟩],
        [], 0⟩).1
      = ⟨200, "Seller onboarding completed successfully"⟩
    ∧ (onboardSeller ⟨"b", "r"⟩ 1
       ⟨true, ⟨some "BN", some "07", some "Addr", some "City", some "St", none, none⟩,
        ⟨some "T", some "Cat", some "Br", some "2", some "1", some "3", some "10", some "m"⟩,
        some ["b1"], some ["p1"], none, none⟩ none
       ⟨[⟨1, "a@x", "user", false, none, none, none, none, none, none, none, none, none, none⟩],
        [], 0⟩).2.products
      = [] ++ [⟨0, mkOnboardProduct ⟨"b", "r"⟩
          ⟨true, ⟨some "BN", some "07", some "Addr", some "City", some "St", none, none⟩,
           ⟨some "T", some "Cat", some "Br", some "2", some "1", some "3", some "10", some "m"⟩,
           some ["b1"], some ["p1"], none, none⟩ 1⟩]
    ∧ (onboardSeller ⟨"b", "r"⟩ 1
       ⟨true, ⟨some "BN", some "07", some "Addr", some "City", some "St", none, none⟩,
        ⟨some "T", some "Cat", some "Br", some "2", some "1", some "3", some "10", some "m"⟩,
        some ["b1"], some ["p1"], none, none⟩ (some 1)
       ⟨[⟨1, "a@x", "user", false, none, none, none, none, none, none, none, none, none, none⟩],
        [], 0⟩).2
      = ⟨[⟨1, "a@x", "user", false, none, none, none, none, none, none, none, none, none, none⟩],
         [], 0⟩ :=
  have hok := (onboardSeller_success_atomic ⟨"b", "r"⟩ 1
    ⟨true, ⟨some "BN", some "07", some "Addr", some "City", some "St", none, none⟩,
     ⟨some "T", some "Cat", some "Br", some "2", some "1", some "3", some "10", some "m"⟩,
     some ["b1"], some ["p1"], none, none⟩ none
    ⟨[⟨1, "a@x", "user", false, none, none, none, none, none, none, none, none, none, none⟩],
     [], 0⟩
    (by decide) (by decide) (by decide) (by decide) (by decide) (by decide)).1 rfl
  have hfail := (onboardSeller_success_atomic ⟨"b", "r"⟩ 1
    ⟨true, ⟨some "BN", some "07", some "Addr", some "City", some "St", none, none⟩,
     ⟨some "T", some "Cat", some "Br", some "2", some "1", some "3", some "10", some "m"⟩,
     some ["b1"], some ["p1"], none, none⟩ (some 1)
    ⟨[⟨1, "a@x", "user", false, none, none, none, none, none, none, none, none, none, none⟩],
     [], 0⟩
    (by decide) (by decide) (by decide) (by decide) (by decide) (by decide)).2 1 rfl
    (by decide)
  ⟨hok.1, hok.2.1, hfail.2⟩

end W3pets
